import Mathlib

/-!
Shallow embedding of the stremhq stream-resolution service.

The repository contains near-duplicate iterations of one handler:
* variant 1: the Express route `/:type/:id/streams.json` in the first half of
  `index.js`, logically identical to the Vercel function `api/streams.js`
  (tmdb-prefix parsing only, `enrichStreamInfo`, and the `hqStreams` quality
  filter);
* variant 2: the Express route `/stream/:type/:id.json` in the second half of
  `index.js` (full identifier parsing with the colon split, a dedicated
  series branch, and no quality filter).

JavaScript strings are modelled as Lean `String`, with the string operations
the handlers use (`startsWith`, `includes`, `split(':')`, one-shot `replace`,
template interpolation of nullable values, `||` defaulting) embedded
explicitly below.  Nullable values (`null` / `undefined`) are `Option`s; the
only interpolation of a nullable value that is reachable interpolates `null`,
which JavaScript renders as the text `"null"`.
-/

/-- Character-list test for `pat` being a prefix of `l`
(JavaScript `String.prototype.startsWith`). -/
def leadsWith : List Char → List Char → Bool
  | [], _ => true
  | _ :: _, [] => false
  | p :: ps, c :: cs => p == c && leadsWith ps cs

/-- Character-list test for `pat` occurring contiguously inside `l`
(JavaScript `String.prototype.includes`). -/
def segScan (pat : List Char) : List Char → Bool
  | [] => leadsWith pat []
  | c :: cs => leadsWith pat (c :: cs) || segScan pat cs

/-- Replace the first occurrence of `pat` by `repl`
(JavaScript `String.prototype.replace` with a string pattern). -/
def replaceOnce (pat repl : List Char) : List Char → List Char
  | [] => if leadsWith pat [] then repl else []
  | c :: cs =>
    if leadsWith pat (c :: cs) then repl ++ (c :: cs).drop pat.length
    else c :: replaceOnce pat repl cs

/-- `s.startsWith(pat)` on the embedded strings. -/
def jsStartsWith (s pat : String) : Bool := leadsWith pat.data s.data

/-- `s.includes(pat)` on the embedded strings. -/
def containsSubstr (s pat : String) : Bool := segScan pat.data s.data

/-- `s.includes(pat)`; alias used where the source calls `includes`. -/
def jsIncludes (s pat : String) : Bool := containsSubstr s pat

/-- `s.replace(pat, repl)`: only the first occurrence is replaced. -/
def jsReplaceFirst (s pat repl : String) : String :=
  String.mk (replaceOnce pat.data repl.data s.data)

/-- `s.split(':')`. -/
def jsSplitColon (s : String) : List String :=
  (List.splitOn ':' s.data).map String.mk

/-- JavaScript truthiness of a string: every string except `""` is truthy. -/
def jsTruthy (s : String) : Bool := s != ""

/-- JavaScript truthiness of a nullable string (`null`/`undefined` are falsy). -/
def jsTruthyOpt : Option String → Bool
  | none => false
  | some s => s != ""

/-- Template interpolation of a nullable string: JavaScript renders `null`
inside a template literal as the text `"null"`. -/
def jsStr : Option String → String
  | none => "null"
  | some s => s

/-- JavaScript `a || b` where `a` is a nullable string: `null`, `undefined`
and `""` fall through to `b`. -/
def jsOr : Option String → String → String
  | none, b => b
  | some s, b => if s == "" then b else s

/-- JavaScript `a || b` where `a` is a possibly-absent boolean. -/
def jsOrBool : Option Bool → Bool → Bool
  | none, b => b
  | some a, b => a || b

/-- One entry of the fixed provider table (`providers` in the source). -/
structure ProviderConfig where
  movieUrl : String
  seriesUrl : String
  quality : List String
  features : List String
  deriving DecidableEq

/-- The fixed four-provider table. -/
structure ProvidersTable where
  vidsrc : ProviderConfig
  godrive : ProviderConfig
  autoembed : ProviderConfig
  tmdbembed : ProviderConfig

/-- The `providers` constant, identical in every variant of the handler. -/
def providers : ProvidersTable where
  vidsrc :=
    { movieUrl := "https://vidsrc.to/embed/movie"
      seriesUrl := "https://vidsrc.to/embed/tv"
      quality := ["1080p", "4K"]
      features := ["subtitles", "auto_update"] }
  godrive :=
    { movieUrl := "https://godriveplayer.com/player.php"
      seriesUrl := "https://godriveplayer.com/player.php"
      quality := ["1080p"]
      features := ["fast_servers", "responsive"] }
  autoembed :=
    { movieUrl := "https://autoembed.cc/embed/movie"
      seriesUrl := "https://autoembed.cc/embed/tv"
      quality := ["1080p", "4K"]
      features := ["free_api"] }
  tmdbembed :=
    { movieUrl := "https://api.tmdbembed.org/embed/movie"
      seriesUrl := "https://api.tmdbembed.org/embed/tv"
      quality := ["1080p", "4K"]
      features := ["multi_source"] }

/-- The `behaviorHints` object attached to every stream record. -/
structure BehaviorHints where
  notWebReady : Bool
  bingeGroup : String
  deriving DecidableEq

/-- The `provider` object produced by `enrichStreamInfo`. -/
structure ProviderInfo where
  name : String
  url : String
  reliability : String
  deriving DecidableEq

/-- The `technicalDetails` object produced by `enrichStreamInfo`. -/
structure TechnicalDetails where
  resolution : String
  format : String
  subtitles : Bool
  hdr : Bool
  deriving DecidableEq

/-- The enriched stream record returned by variant 1 (a CandidateStream). -/
structure EnrichedStream where
  name : String
  title : String
  url : String
  description : String
  behaviorHints : BehaviorHints
  provider : ProviderInfo
  technicalDetails : TechnicalDetails
  deriving DecidableEq

/-- The loose `stream` argument of `enrichStreamInfo`: a JavaScript object
whose fields may all be absent. -/
structure StreamInfo where
  quality : Option String := none
  title : Option String := none
  url : Option String := none
  features : Option (List String) := none
  format : Option String := none
  subtitles : Option Bool := none
  hdr : Option Bool := none

/-- `enrichStreamInfo` from `index.js` (variant 1) and `api/streams.js`. -/
def enrichStreamInfo (stream : StreamInfo) (providerName sourceUrl : String) :
    EnrichedStream where
  name := providerName ++ " - " ++ jsOr stream.quality "HD"
  title := jsOr stream.title (providerName ++ " Stream")
  url := jsOr stream.url sourceUrl
  description :=
    "Source: " ++ providerName ++ "\nQuality: " ++ jsOr stream.quality "HD"
      ++ "\nFeatures: "
      ++ jsOr (stream.features.map (String.intercalate ", ")) "Standard"
  behaviorHints := { notWebReady := false, bingeGroup := providerName }
  provider := { name := providerName, url := sourceUrl, reliability := "high" }
  technicalDetails :=
    { resolution := jsOr stream.quality "1080p"
      format := jsOr stream.format "mp4"
      subtitles := jsOrBool stream.subtitles false
      hdr := jsOrBool stream.hdr false }

/-- Variant 1 identifier handling: `tmdbId` is set only for a `tmdb:` prefix
(`let tmdbId = null; if (id.startsWith('tmdb:')) tmdbId = id.replace('tmdb:', '')`). -/
def tmdbId1 (id : String) : Option String :=
  if jsStartsWith id "tmdb:" then some (jsReplaceFirst id "tmdb:" "") else none

/-- Variant 1 `vidsrcUrl` ternary. -/
def vidsrcUrl1 (type imdbId : String) : String :=
  if type == "movie" then providers.vidsrc.movieUrl ++ "/" ++ imdbId
  else providers.vidsrc.seriesUrl ++ "/" ++ imdbId

/-- Variant 1 `godriveUrl` ternary: the series arm interpolates the nullable
`tmdbId` directly into the query string. -/
def godriveUrl1 (type imdbId : String) (tmdbId : Option String) : String :=
  if type == "movie" then providers.godrive.movieUrl ++ "?imdb=" ++ imdbId
  else providers.godrive.seriesUrl ++ "?tmdb=" ++ jsStr tmdbId
    ++ "&season=1&episode=1"

/-- Variant 1 `autoembedUrl` ternary. -/
def autoembedUrl1 (type imdbId : String) : String :=
  if type == "movie" then providers.autoembed.movieUrl ++ "/" ++ imdbId
  else providers.autoembed.seriesUrl ++ "/" ++ imdbId

/-- Variant 1 `tmdbembedUrl` ternary (`tmdbId || imdbId` in both arms). -/
def tmdbembedUrl1 (type imdbId : String) (tmdbId : Option String) : String :=
  if type == "movie" then providers.tmdbembed.movieUrl ++ "/" ++ jsOr tmdbId imdbId
  else providers.tmdbembed.seriesUrl ++ "/" ++ jsOr tmdbId imdbId

/-- Variant 1, first `try` block: the VidSrc stream. -/
def v1Vidsrc (type id : String) : EnrichedStream :=
  enrichStreamInfo
    { quality := some "1080p", features := some providers.vidsrc.features }
    "VidSrc" (vidsrcUrl1 type id)

/-- Variant 1, second `try` block: the GoDrivePlayer stream. -/
def v1Godrive (type id : String) : EnrichedStream :=
  enrichStreamInfo
    { quality := some "1080p", features := some providers.godrive.features }
    "GoDrivePlayer" (godriveUrl1 type id (tmdbId1 id))

/-- Variant 1, third `try` block: the AutoEmbed stream. -/
def v1Autoembed (type id : String) : EnrichedStream :=
  enrichStreamInfo
    { quality := some "1080p", features := some providers.autoembed.features }
    "AutoEmbed" (autoembedUrl1 type id)

/-- Variant 1, fourth `try` block: the TMDB-Embed stream. -/
def v1Tmdbembed (type id : String) : EnrichedStream :=
  enrichStreamInfo
    { quality := some "4K", features := some providers.tmdbembed.features }
    "TMDB-Embed" (tmdbembedUrl1 type id (tmdbId1 id))

/-- Variant 1 `streams` array after the four `try` blocks, in the case where
no block throws. -/
def handler1Build (type id : String) : List EnrichedStream :=
  [v1Vidsrc type id, v1Godrive type id, v1Autoembed type id, v1Tmdbembed type id]

/-- The `hqStreams` filter of variant 1 and `api/streams.js`:
`streams.filter(s => s.technicalDetails.resolution === '1080p' || s.technicalDetails.resolution === '4K')`. -/
def hqStreams (streams : List EnrichedStream) : List EnrichedStream :=
  streams.filter fun stream =>
    stream.technicalDetails.resolution == "1080p"
      || stream.technicalDetails.resolution == "4K"

/-- An HTTP response body: either the JSON error object or a stream list. -/
inductive RespBody (α : Type) where
  | errorMsg : String → RespBody α
  | streams : List α → RespBody α
  deriving DecidableEq

/-- An HTTP response: status code plus body. -/
structure Resp (α : Type) where
  status : Nat
  body : RespBody α
  deriving DecidableEq

/-- Variant 1 handler, end to end (parameter guard, build, filter, respond). -/
def handler1 (type id : String) : Resp EnrichedStream :=
  if !jsTruthy type || !jsTruthy id then
    { status := 400, body := .errorMsg "Missing type or id parameter" }
  else
    { status := 200, body := .streams (hqStreams (handler1Build type id)) }

/-- The four fixed providers, used to model the per-provider `try`/`catch`
blocks abstractly. -/
inductive Provider where
  | vidsrc
  | godrive
  | autoembed
  | tmdbembed
  deriving DecidableEq

/-- The order in which the source pushes provider streams. -/
def providerOrder : List Provider := [.vidsrc, .godrive, .autoembed, .tmdbembed]

/-- The variant 1 stream each provider's `try` block pushes. -/
def streamFor1 (p : Provider) (type id : String) : EnrichedStream :=
  match p with
  | .vidsrc => v1Vidsrc type id
  | .godrive => v1Godrive type id
  | .autoembed => v1Autoembed type id
  | .tmdbembed => v1Tmdbembed type id

/-- The display name each provider's block uses. -/
def providerNameOf : Provider → String
  | .vidsrc => "VidSrc"
  | .godrive => "GoDrivePlayer"
  | .autoembed => "AutoEmbed"
  | .tmdbembed => "TMDB-Embed"

/-- Variant 1 `streams` array under an abstract failure assignment: a
provider whose `try` block throws (`fails p = true`) pushes nothing and
control continues with the next block. -/
def handler1BuildF (type id : String) (fails : Provider → Bool) :
    List EnrichedStream :=
  (if fails .vidsrc then [] else [v1Vidsrc type id])
    ++ (if fails .godrive then [] else [v1Godrive type id])
    ++ (if fails .autoembed then [] else [v1Autoembed type id])
    ++ (if fails .tmdbembed then [] else [v1Tmdbembed type id])

/-- Variant 1 handler under an abstract failure assignment. -/
def handler1F (type id : String) (fails : Provider → Bool) :
    Resp EnrichedStream :=
  if !jsTruthy type || !jsTruthy id then
    { status := 400, body := .errorMsg "Missing type or id parameter" }
  else
    { status := 200, body := .streams (hqStreams (handler1BuildF type id fails)) }

/-- Parsed identifier state of variant 2
(`imdbId` / `tmdbId` / `season` / `episode`). -/
structure ParsedId where
  imdbId : String
  tmdbId : Option String
  season : Option String
  episode : Option String
  deriving DecidableEq

/-- Variant 2 identifier parsing (`/stream/:type/:id.json` handler):
`tmdb:` prefix first, then the colon split, then the verbatim fallthrough.
`parts[0]` is total in JavaScript because `split` never returns an empty
array; `headD ""` renders that. -/
def parseId (id : String) : ParsedId :=
  if jsStartsWith id "tmdb:" then
    { imdbId := id, tmdbId := some (jsReplaceFirst id "tmdb:" "")
      season := none, episode := none }
  else if jsIncludes id ":" then
    { imdbId := (jsSplitColon id).headD "", tmdbId := none
      season := (jsSplitColon id)[1]?, episode := (jsSplitColon id)[2]? }
  else
    { imdbId := id, tmdbId := none, season := none, episode := none }

/-- The plain stream record pushed by variant 2 (no enrichment). -/
structure Stream2 where
  name : String
  title : String
  url : String
  description : String
  behaviorHints : BehaviorHints
  deriving DecidableEq

/-- Variant 2, series branch, VidSrc block. -/
def v2SeriesVidsrc (p : ParsedId) : Stream2 where
  name := "VidSrc"
  title := "VidSrc - 1080p"
  url := providers.vidsrc.seriesUrl ++ "/" ++ p.imdbId ++ "/" ++ jsStr p.season
    ++ "/" ++ jsStr p.episode
  description := "Source: VidSrc\nQuality: 1080p\nFeatures: subtitles, auto_update"
  behaviorHints := { notWebReady := false, bingeGroup := "VidSrc" }

/-- Variant 2, series branch, GoDrivePlayer block
(`?tmdb=${tmdbId || imdbId}&season=${season}&episode=${episode}`). -/
def v2SeriesGodrive (p : ParsedId) : Stream2 where
  name := "GoDrivePlayer"
  title := "GoDrivePlayer - 1080p"
  url := providers.godrive.seriesUrl ++ "?tmdb=" ++ jsOr p.tmdbId p.imdbId
    ++ "&season=" ++ jsStr p.season ++ "&episode=" ++ jsStr p.episode
  description := "Source: GoDrivePlayer\nQuality: 1080p\nFeatures: fast_servers, responsive"
  behaviorHints := { notWebReady := false, bingeGroup := "GoDrivePlayer" }

/-- Variant 2, series branch, AutoEmbed block. -/
def v2SeriesAutoembed (p : ParsedId) : Stream2 where
  name := "AutoEmbed"
  title := "AutoEmbed - 1080p"
  url := providers.autoembed.seriesUrl ++ "/" ++ p.imdbId ++ "/" ++ jsStr p.season
    ++ "/" ++ jsStr p.episode
  description := "Source: AutoEmbed\nQuality: 1080p\nFeatures: free_api"
  behaviorHints := { notWebReady := false, bingeGroup := "AutoEmbed" }

/-- Variant 2, series branch, TMDB-Embed block. -/
def v2SeriesTmdbembed (p : ParsedId) : Stream2 where
  name := "TMDB-Embed"
  title := "TMDB-Embed - 4K"
  url := providers.tmdbembed.seriesUrl ++ "/" ++ jsOr p.tmdbId p.imdbId ++ "/"
    ++ jsStr p.season ++ "/" ++ jsStr p.episode
  description := "Source: TMDB-Embed\nQuality: 4K\nFeatures: multi_source"
  behaviorHints := { notWebReady := false, bingeGroup := "TMDB-Embed" }

/-- Variant 2, movie-or-episodeless branch, VidSrc block. -/
def v2FallbackVidsrc (type : String) (p : ParsedId) : Stream2 where
  name := "VidSrc"
  title := "VidSrc - 1080p"
  url :=
    if type == "movie" then providers.vidsrc.movieUrl ++ "/" ++ p.imdbId
    else providers.vidsrc.seriesUrl ++ "/" ++ p.imdbId
  description := "Source: VidSrc\nQuality: 1080p\nFeatures: subtitles, auto_update"
  behaviorHints := { notWebReady := false, bingeGroup := "VidSrc" }

/-- Variant 2, movie-or-episodeless branch, GoDrivePlayer block: the series
arm hardcodes `season=1&episode=1`. -/
def v2FallbackGodrive (type : String) (p : ParsedId) : Stream2 where
  name := "GoDrivePlayer"
  title := "GoDrivePlayer - 1080p"
  url :=
    if type == "movie" then providers.godrive.movieUrl ++ "?imdb=" ++ p.imdbId
    else providers.godrive.seriesUrl ++ "?tmdb=" ++ jsOr p.tmdbId p.imdbId
      ++ "&season=1&episode=1"
  description := "Source: GoDrivePlayer\nQuality: 1080p\nFeatures: fast_servers, responsive"
  behaviorHints := { notWebReady := false, bingeGroup := "GoDrivePlayer" }

/-- Variant 2, movie-or-episodeless branch, AutoEmbed block. -/
def v2FallbackAutoembed (type : String) (p : ParsedId) : Stream2 where
  name := "AutoEmbed"
  title := "AutoEmbed - 1080p"
  url :=
    if type == "movie" then providers.autoembed.movieUrl ++ "/" ++ p.imdbId
    else providers.autoembed.seriesUrl ++ "/" ++ p.imdbId
  description := "Source: AutoEmbed\nQuality: 1080p\nFeatures: free_api"
  behaviorHints := { notWebReady := false, bingeGroup := "AutoEmbed" }

/-- Variant 2, movie-or-episodeless branch, TMDB-Embed block. -/
def v2FallbackTmdbembed (type : String) (p : ParsedId) : Stream2 where
  name := "TMDB-Embed"
  title := "TMDB-Embed - 4K"
  url :=
    if type == "movie" then providers.tmdbembed.movieUrl ++ "/" ++ jsOr p.tmdbId p.imdbId
    else providers.tmdbembed.seriesUrl ++ "/" ++ jsOr p.tmdbId p.imdbId
  description := "Source: TMDB-Embed\nQuality: 4K\nFeatures: multi_source"
  behaviorHints := { notWebReady := false, bingeGroup := "TMDB-Embed" }

/-- Variant 2 series branch (`type === 'series' && season && episode`). -/
def handler2SeriesBranch (p : ParsedId) : List Stream2 :=
  [v2SeriesVidsrc p, v2SeriesGodrive p, v2SeriesAutoembed p, v2SeriesTmdbembed p]

/-- Variant 2 `else` branch (movies, or series without season/episode). -/
def handler2FallbackBranch (type : String) (p : ParsedId) : List Stream2 :=
  [v2FallbackVidsrc type p, v2FallbackGodrive type p, v2FallbackAutoembed type p,
    v2FallbackTmdbembed type p]

/-- Variant 2 stream list: parse, then branch on
`type === 'series' && season && episode`. -/
def handler2Streams (type id : String) : List Stream2 :=
  let p := parseId id
  if type == "series" && jsTruthyOpt p.season && jsTruthyOpt p.episode then
    handler2SeriesBranch p
  else
    handler2FallbackBranch type p

/-- Variant 2 handler, end to end. -/
def handler2 (type id : String) : Resp Stream2 :=
  if !jsTruthy type || !jsTruthy id then
    { status := 400, body := .errorMsg "Missing type or id parameter" }
  else
    { status := 200, body := .streams (handler2Streams type id) }

/-- ASCII lowercasing, for the case-insensitive comparison the spec describes. -/
def asciiLower (s : String) : String :=
  String.mk (s.data.map fun c =>
    if 65 ≤ c.toNat ∧ c.toNat ≤ 90 then Char.ofNat (c.toNat + 32) else c)

/-- Following the spec's words (section 4.3): keep a stream whose quality
label, compared case-insensitively, contains the substring `1080p`, `4k` or
`2160p`.  Stated for comparison with the source's `hqStreams` filter. -/
def specQualityPred (s : EnrichedStream) : Bool :=
  containsSubstr (asciiLower s.technicalDetails.resolution) "1080p"
    || containsSubstr (asciiLower s.technicalDetails.resolution) "4k"
    || containsSubstr (asciiLower s.technicalDetails.resolution) "2160p"

/-! ## Helper lemmas -/

theorem leadsWith_append (p t : List Char) : leadsWith p (p ++ t) = true := by
  induction p with
  | nil => rfl
  | cons c cs ih => simp [leadsWith, ih]

theorem leadsWith_iff (p l : List Char) :
    leadsWith p l = true ↔ ∃ t, l = p ++ t := by
  induction p generalizing l with
  | nil => simp [leadsWith]
  | cons c cs ih =>
    cases l with
    | nil => simp [leadsWith]
    | cons d ds =>
      simp only [leadsWith, Bool.and_eq_true, beq_iff_eq, ih, List.cons_append,
        List.cons.injEq]
      constructor
      · rintro ⟨rfl, t, rfl⟩; exact ⟨t, rfl, rfl⟩
      · rintro ⟨t, rfl, rfl⟩; exact ⟨rfl, t, rfl⟩

theorem segScan_append (pat a b : List Char) (h : segScan pat b = true) :
    segScan pat (a ++ b) = true := by
  induction a with
  | nil => simpa using h
  | cons c cs ih => simp [segScan, ih]

theorem containsSubstr_append (a b pat : String)
    (h : containsSubstr b pat = true) : containsSubstr (a ++ b) pat = true := by
  unfold containsSubstr at *
  rw [String.data_append]
  exact segScan_append _ _ _ h

theorem replaceOnce_strip (pat t : List Char) :
    replaceOnce pat [] (pat ++ t) = t := by
  cases pat with
  | nil =>
    cases t with
    | nil => rfl
    | cons c cs => simp [replaceOnce, leadsWith]
  | cons p ps =>
    show replaceOnce (p :: ps) [] (p :: (ps ++ t)) = t
    have hl : leadsWith (p :: ps) (p :: (ps ++ t)) = true := by
      simpa using leadsWith_append (p :: ps) t
    simp [replaceOnce, hl, List.drop_left]

theorem jsReplaceFirst_strip (id : String) (h : jsStartsWith id "tmdb:" = true) :
    jsReplaceFirst id "tmdb:" "" = String.mk (id.data.drop 5) := by
  obtain ⟨t, ht⟩ := (leadsWith_iff _ _).mp h
  unfold jsReplaceFirst
  rw [ht]
  have h5 : ("tmdb:" : String).data.length = 5 := by decide
  rw [show ("" : String).data = [] from rfl, replaceOnce_strip]
  rw [← h5, List.drop_left]

theorem handler1BuildF_eq (type id : String) (fails : Provider → Bool) :
    handler1BuildF type id fails
      = (providerOrder.filter fun q => !fails q).map fun q => streamFor1 q type id := by
  cases h1 : fails .vidsrc <;> cases h2 : fails .godrive <;>
    cases h3 : fails .autoembed <;> cases h4 : fails .tmdbembed <;>
    simp [handler1BuildF, providerOrder, streamFor1, List.filter, h1, h2, h3, h4]

theorem handler1BuildF_false (type id : String) :
    handler1BuildF type id (fun _ => false) = handler1Build type id := rfl

theorem streamFor1_resolution (q : Provider) (type id : String) :
    (streamFor1 q type id).technicalDetails.resolution = "1080p"
      ∨ (streamFor1 q type id).technicalDetails.resolution = "4K" := by
  cases q
  · exact Or.inl rfl
  · exact Or.inl rfl
  · exact Or.inl rfl
  · exact Or.inr rfl

theorem streamFor1_providerName (q : Provider) (type id : String) :
    (streamFor1 q type id).provider.name = providerNameOf q := by
  cases q <;> rfl

theorem hqStreams_buildF (type id : String) (fails : Provider → Bool) :
    hqStreams (handler1BuildF type id fails) = handler1BuildF type id fails := by
  apply List.filter_eq_self.mpr
  intro s hs
  rw [handler1BuildF_eq] at hs
  obtain ⟨q, _, rfl⟩ := List.mem_map.mp hs
  rcases streamFor1_resolution q type id with h | h <;> simp [h]

theorem hqStreams_build (type id : String) :
    hqStreams (handler1Build type id) = handler1Build type id := by
  rw [← handler1BuildF_false type id]
  exact hqStreams_buildF type id (fun _ => false)

/-! ## Claims -/

/-- Claim C1, counterexample: the response filter is not the case-insensitive
substring test over `1080p` / `4k` / `2160p` that the claim states.  On a
CandidateStream built by `enrichStreamInfo` with quality label `2160p`, the
source's `hqStreams` filter (exact comparison with `1080p` and `4K`) drops
the stream while the claimed predicate keeps it. -/
theorem c1_quality_filter_counterexample :
    hqStreams [enrichStreamInfo { quality := some "2160p" } "TestProvider"
        "http://example.org"]
      ≠ List.filter specQualityPred
          [enrichStreamInfo { quality := some "2160p" } "TestProvider"
            "http://example.org"] := by
  decide

/-- Claim C1, amended: the handler's response stream list is exactly those
streams whose declared resolution is exactly the string `1080p` or exactly
the string `4K` (case-sensitive whole-string comparison); in particular a
stream labeled `720p` is excluded and one labeled `1080p` or `4K` is
included, but labels such as `2160p` or lowercase `4k` are excluded too. -/
theorem c1_quality_filter_exact (l : List EnrichedStream) (s : EnrichedStream) :
    s ∈ hqStreams l ↔
      s ∈ l ∧ (s.technicalDetails.resolution = "1080p"
        ∨ s.technicalDetails.resolution = "4K") := by
  unfold hqStreams
  simp [List.mem_filter]

/-- Claim C1, witness for the amended statement at a concrete stream. -/
theorem c1_quality_filter_exact_witness :
    v1Vidsrc "movie" "tt1" ∈ hqStreams [v1Vidsrc "movie" "tt1"] :=
  (c1_quality_filter_exact [v1Vidsrc "movie" "tt1"] (v1Vidsrc "movie" "tt1")).mpr
    ⟨by simp, Or.inl rfl⟩

/-- Claim C2: the variant 2 parser applies its rules in order, first match
winning: a `tmdb:` prefix yields the alternate id (the identifier with the
prefix stripped, that is, the first five characters dropped) while the
primary id stays the full original string; otherwise an identifier with a
colon is split on `:` into primary id / season / episode; otherwise the
identifier is the primary id verbatim.  In particular every identifier of
the form `tmdb:` followed by a rest parses to the alternate id equal to that
rest. -/
theorem c2_parser_rules (id : String) :
    (jsStartsWith id "tmdb:" = true →
      parseId id = ⟨id, some (String.mk (id.data.drop 5)), none, none⟩)
    ∧ (jsStartsWith id "tmdb:" = false → jsIncludes id ":" = true →
      parseId id = ⟨(jsSplitColon id).headD "", none, (jsSplitColon id)[1]?,
        (jsSplitColon id)[2]?⟩)
    ∧ (jsStartsWith id "tmdb:" = false → jsIncludes id ":" = false →
      parseId id = ⟨id, none, none, none⟩)
    ∧ (∀ rest : String, (parseId ("tmdb:" ++ rest)).tmdbId = some rest) := by
  refine ⟨fun h => ?_, fun h1 h2 => ?_, fun h1 h2 => ?_, fun rest => ?_⟩
  · rw [parseId, if_pos h, jsReplaceFirst_strip id h]
  · rw [parseId, if_neg (by simp [h1]), if_pos h2]
  · rw [parseId, if_neg (by simp [h1]), if_neg (by simp [h2])]
  · have hsw : jsStartsWith ("tmdb:" ++ rest) "tmdb:" = true := by
      unfold jsStartsWith
      rw [String.data_append]
      exact leadsWith_append _ _
    have h5 : ("tmdb:" ++ rest).data.drop 5 = rest.data := by
      rw [String.data_append]
      have : ("tmdb:" : String).data.length = 5 := by decide
      rw [← this, List.drop_left]
    rw [parseId, if_pos hsw, jsReplaceFirst_strip _ hsw, h5]

/-- Claim C2, witness: the three rules and the `tmdb:` consequence at
concrete identifiers. -/
theorem c2_parser_rules_witness :
    parseId "tmdb:123" = ⟨"tmdb:123", some "123", none, none⟩
    ∧ parseId "tt0903747:1:2" = ⟨"tt0903747", none, some "1", some "2"⟩
    ∧ parseId "tt0111161" = ⟨"tt0111161", none, none, none⟩
    ∧ (parseId ("tmdb:" ++ "456")).tmdbId = some "456" := by
  refine ⟨?_, ?_, ?_, (c2_parser_rules "z").2.2.2 "456"⟩
  · rw [(c2_parser_rules "tmdb:123").1 (by decide)]; decide
  · rw [(c2_parser_rules "tt0903747:1:2").2.1 (by decide) (by decide)]; decide
  · rw [(c2_parser_rules "tt0111161").2.2.1 (by decide) (by decide)]

/-- Claim C3: for type `movie` and id `tt0111161`, both handler variants
produce exactly four CandidateStreams, one per provider in the fixed order,
and each stream's URL contains the substring `tt0111161`. -/
theorem c3_movie_tt0111161 :
    ((handler2Streams "movie" "tt0111161").map fun s =>
        (s.name, containsSubstr s.url "tt0111161"))
      = [("VidSrc", true), ("GoDrivePlayer", true), ("AutoEmbed", true),
          ("TMDB-Embed", true)]
    ∧ ((hqStreams (handler1Build "movie" "tt0111161")).map fun s =>
        (s.provider.name, containsSubstr s.url "tt0111161"))
      = [("VidSrc", true), ("GoDrivePlayer", true), ("AutoEmbed", true),
          ("TMDB-Embed", true)] := by
  decide

/-- Claim C4: if one provider's `try` block fails, that provider alone is
omitted: the response is still a 200 whose list consists of the other three
providers' streams in the fixed order. -/
theorem c4_provider_failure_isolated (type id : String)
    (fails : Provider → Bool) (p : Provider) (hp : fails p = true)
    (hq : ∀ q, q ≠ p → fails q = false)
    (ht : jsTruthy type = true) (hi : jsTruthy id = true) :
    handler1F type id fails =
      ⟨200, .streams ((providerOrder.filter fun q => !(q == p)).map
        fun q => streamFor1 q type id)⟩ := by
  have hfil : (providerOrder.filter fun q => !fails q)
      = providerOrder.filter fun q => !(q == p) := by
    apply List.filter_congr
    intro q _
    by_cases hqp : q = p
    · subst hqp
      simp [hp]
    · simp [hq q hqp, hqp]
  unfold handler1F
  rw [if_neg (by simp [ht, hi])]
  rw [hqStreams_buildF, handler1BuildF_eq, hfil]

/-- Claim C4, witness: GoDrivePlayer's block fails; the other three streams
are returned with a 200. -/
theorem c4_provider_failure_isolated_witness :
    handler1F "movie" "tt0111161" (fun q => q == Provider.godrive) =
      ⟨200, .streams ((providerOrder.filter fun q => !(q == Provider.godrive)).map
        fun q => streamFor1 q "movie" "tt0111161")⟩ :=
  c4_provider_failure_isolated "movie" "tt0111161"
    (fun q => q == Provider.godrive) Provider.godrive (by decide)
    (by intro q hq; cases q <;> simp_all) (by decide) (by decide)

/-- Claim C5: an empty `type` or `id` parameter makes both HTTP handler
variants answer 400 with the error body, and no streams are built. -/
theorem c5_missing_params_400 (type id : String) (h : type = "" ∨ id = "") :
    handler1 type id = ⟨400, .errorMsg "Missing type or id parameter"⟩
    ∧ handler2 type id = ⟨400, .errorMsg "Missing type or id parameter"⟩ := by
  rcases h with h | h <;> subst h <;>
    exact ⟨by simp [handler1, jsTruthy], by simp [handler2, jsTruthy]⟩

/-- Claim C5, witness at `type = ""`. -/
theorem c5_missing_params_400_witness :
    handler1 "" "tt0111161" = ⟨400, .errorMsg "Missing type or id parameter"⟩
    ∧ handler2 "" "tt0111161" = ⟨400, .errorMsg "Missing type or id parameter"⟩ :=
  c5_missing_params_400 "" "tt0111161" (Or.inl rfl)

/-- Claim C6: for type `series` and id `tt0903747:1:1`, the GoDrivePlayer
stream's URL query string contains the substring `season=1&episode=1` (the
exact URLs of all four streams are listed for reference). -/
theorem c6_series_godrive_query :
    ((handler2Streams "series" "tt0903747:1:1").map fun s =>
        (s.name, containsSubstr s.url "season=1&episode=1"))
      = [("VidSrc", false), ("GoDrivePlayer", true), ("AutoEmbed", false),
          ("TMDB-Embed", false)]
    ∧ ((handler2Streams "series" "tt0903747:1:1").map fun s => s.url)
      = ["https://vidsrc.to/embed/tv/tt0903747/1/1",
          "https://godriveplayer.com/player.php?tmdb=tt0903747&season=1&episode=1",
          "https://autoembed.cc/embed/tv/tt0903747/1/1",
          "https://api.tmdbembed.org/embed/tv/tt0903747/1/1"] := by
  decide

/-- Claim C7: for a series request whose parsed identifier has no season and
no episode, the variant 2 handler takes the branch without explicit
season/episode handling, and the GoDrivePlayer stream it returns carries
`season=1&episode=1` in its URL. -/
theorem c7_series_default_season_episode (id : String)
    (hs : (parseId id).season = none) (_he : (parseId id).episode = none) :
    handler2Streams "series" id = handler2FallbackBranch "series" (parseId id)
    ∧ v2FallbackGodrive "series" (parseId id) ∈ handler2Streams "series" id
    ∧ containsSubstr (v2FallbackGodrive "series" (parseId id)).url
        "season=1&episode=1" = true := by
  have hbr : handler2Streams "series" id
      = handler2FallbackBranch "series" (parseId id) := by
    simp [handler2Streams, hs, jsTruthyOpt]
  refine ⟨hbr, ?_, ?_⟩
  · rw [hbr]
    simp [handler2FallbackBranch]
  · show containsSubstr (v2FallbackGodrive "series" (parseId id)).url
      "season=1&episode=1" = true
    unfold v2FallbackGodrive
    simp only []
    rw [if_neg (by decide)]
    exact containsSubstr_append _ _ _ (by decide)

/-- Claim C7, witness at the episodeless series id `tt0903747`. -/
theorem c7_series_default_season_episode_witness :
    handler2Streams "series" "tt0903747"
        = handler2FallbackBranch "series" (parseId "tt0903747")
    ∧ v2FallbackGodrive "series" (parseId "tt0903747")
        ∈ handler2Streams "series" "tt0903747"
    ∧ containsSubstr (v2FallbackGodrive "series" (parseId "tt0903747")).url
        "season=1&episode=1" = true :=
  c7_series_default_season_episode "tt0903747" (by decide) (by decide)

/-- Claim C8: over the fixed provider table the quality filter is a no-op:
every stream variant 1 builds carries resolution `1080p` or `4K`, so the
filtered list equals the built list, for every request. -/
theorem c8_quality_filter_noop (type id : String) :
    hqStreams (handler1Build type id) = handler1Build type id
    ∧ ∀ s ∈ handler1Build type id,
        s.technicalDetails.resolution = "1080p"
          ∨ s.technicalDetails.resolution = "4K" := by
  refine ⟨hqStreams_build type id, ?_⟩
  intro s hs
  have : handler1Build type id
      = (providerOrder.filter fun q => !(fun _ => false) q).map
          fun q => streamFor1 q type id := by
    rw [← handler1BuildF_false type id, handler1BuildF_eq]
  rw [this] at hs
  obtain ⟨q, _, rfl⟩ := List.mem_map.mp hs
  exact streamFor1_resolution q type id

/-- Claim C8, witness at a concrete request and stream. -/
theorem c8_quality_filter_noop_witness :
    hqStreams (handler1Build "movie" "tt0111161")
        = handler1Build "movie" "tt0111161"
    ∧ ((v1Vidsrc "movie" "tt0111161").technicalDetails.resolution = "1080p"
        ∨ (v1Vidsrc "movie" "tt0111161").technicalDetails.resolution = "4K") :=
  ⟨(c8_quality_filter_noop "movie" "tt0111161").1,
    (c8_quality_filter_noop "movie" "tt0111161").2 _ (by simp [handler1Build])⟩

/-- Claim C9: in variant 1 (the first Express handler and the Vercel
function), a series request whose id lacks the `tmdb:` prefix leaves
`tmdbId` null, and the GoDrivePlayer URL interpolates it literally: the URL
contains the substring `tmdb=null`.  The stream survives the quality filter
and is part of the response. -/
theorem c9_tmdb_null_interpolation (id : String)
    (h : jsStartsWith id "tmdb:" = false) :
    v1Godrive "series" id ∈ handler1Build "series" id
    ∧ v1Godrive "series" id ∈ hqStreams (handler1Build "series" id)
    ∧ (v1Godrive "series" id).provider.name = "GoDrivePlayer"
    ∧ containsSubstr (v1Godrive "series" id).url "tmdb=null" = true := by
  have hm : v1Godrive "series" id ∈ handler1Build "series" id := by
    simp [handler1Build]
  refine ⟨hm, by rw [hqStreams_build]; exact hm, rfl, ?_⟩
  have hnull : tmdbId1 id = none := by
    unfold tmdbId1
    rw [h]
    rfl
  have hurl : (v1Godrive "series" id).url
      = "https://godriveplayer.com/player.php" ++ "?tmdb=" ++ "null"
        ++ "&season=1&episode=1" := by
    unfold v1Godrive enrichStreamInfo godriveUrl1
    rw [hnull]
    rfl
  rw [hurl]
  decide

/-- Claim C9, witness at `tt0903747`. -/
theorem c9_tmdb_null_interpolation_witness :
    v1Godrive "series" "tt0903747" ∈ handler1Build "series" "tt0903747"
    ∧ v1Godrive "series" "tt0903747"
        ∈ hqStreams (handler1Build "series" "tt0903747")
    ∧ (v1Godrive "series" "tt0903747").provider.name = "GoDrivePlayer"
    ∧ containsSubstr (v1Godrive "series" "tt0903747").url "tmdb=null" = true :=
  c9_tmdb_null_interpolation "tt0903747" (by decide)

/-- Claim C10: stream resolution is deterministic: two runs of the variant 1
handler on the same `(type, id)` with the same per-provider outcomes return
identical responses, and the provider names in the response always appear as
a subsequence of the fixed order VidSrc, GoDrivePlayer, AutoEmbed,
TMDB-Embed (failed providers omitted). -/
theorem c10_deterministic_fixed_order (type type' id id' : String)
    (fails fails' : Provider → Bool) (h1 : type = type') (h2 : id = id')
    (h3 : ∀ p, fails p = fails' p) :
    handler1F type id fails = handler1F type' id' fails'
    ∧ List.Sublist
        ((hqStreams (handler1BuildF type id fails)).map fun s => s.provider.name)
        ["VidSrc", "GoDrivePlayer", "AutoEmbed", "TMDB-Embed"] := by
  subst h1
  subst h2
  have hf : fails = fails' := funext h3
  subst hf
  refine ⟨rfl, ?_⟩
  rw [hqStreams_buildF, handler1BuildF_eq, List.map_map]
  have hname : ((providerOrder.filter fun q => !fails q).map
        fun q => ((fun s => s.provider.name) ∘ fun q => streamFor1 q type id) q)
      = (providerOrder.filter fun q => !fails q).map providerNameOf := by
    apply List.map_congr_left
    intro q _
    exact streamFor1_providerName q type id
  rw [hname]
  have : (["VidSrc", "GoDrivePlayer", "AutoEmbed", "TMDB-Embed"] : List String)
      = providerOrder.map providerNameOf := rfl
  rw [this]
  exact List.Sublist.map providerNameOf (List.filter_sublist providerOrder)

/-- Claim C10, witness: same request, same outcomes, identical responses and
ordered names. -/
theorem c10_deterministic_fixed_order_witness :
    handler1F "movie" "tt0111161" (fun _ => false)
        = handler1F "movie" "tt0111161" (fun _ => false)
    ∧ List.Sublist
        ((hqStreams (handler1BuildF "movie" "tt0111161" (fun _ => false))).map
          fun s => s.provider.name)
        ["VidSrc", "GoDrivePlayer", "AutoEmbed", "TMDB-Embed"] :=
  c10_deterministic_fixed_order "movie" "movie" "tt0111161" "tt0111161"
    (fun _ => false) (fun _ => false) rfl rfl (fun _ => rfl)
